import Mathlib

set_option maxRecDepth 40000

/-!
Shallow embedding of nsp.py, a routing facade ("navigation server proxy").
Coordinates and other numeric values are modelled as rationals; comma
separated query values are modelled as the list of their parsed numeric
components; JSON payloads are modelled as structures carrying exactly the
fields the code reads.
-/

/-- Canonical routing request, embedding class RouteQuery of nsp.py.
Fields origin and destination are absent (None) until set; mode defaults
to car and waypoints to the empty list, as in RouteQuery.__init__. -/
structure RouteQuery where
  origin : Option (List ℚ)
  destination : Option (List ℚ)
  mode : String
  waypoints : List (ℚ × ℚ)
deriving DecidableEq, Repr

/-- The freshly initialised RouteQuery (RouteQuery.__init__). -/
def RouteQuery.init : RouteQuery :=
  { origin := none, destination := none, mode := "car", waypoints := [] }

/-- Model of the Python slice wp[::2]: every second element starting at 0. -/
def everyOther : List ℚ → List ℚ
  | [] => []
  | [a] => [a]
  | a :: _ :: rest => a :: everyOther rest

/-- Model of list(zip(wp[::2], wp[1::2])) from RouteQuery.from_args:
the flat waypoint list grouped pairwise; zip truncates to the shorter
slice, so a trailing unpaired value is dropped. -/
def pairwiseWaypoints (wp : List ℚ) : List (ℚ × ℚ) :=
  (everyOther wp).zip (everyOther (wp.drop 1))

/-- The query-string arguments read by RouteQuery.from_args. The origin and
destination values stand for the float lists parsed from the comma
separated strings; mode may appear in the query string but from_args never
reads it. -/
structure Args where
  origin : List ℚ
  destination : List ℚ
  waypoints : Option (List ℚ)
  mode : Option String
deriving DecidableEq, Repr

/-- RouteQuery.from_args: origin and destination are parsed float lists,
waypoints (when present) are grouped pairwise; mode is left at the
default car because from_args never consults args for it. -/
def fromArgs (a : Args) : RouteQuery :=
  { origin := some a.origin,
    destination := some a.destination,
    mode := RouteQuery.init.mode,
    waypoints :=
      match a.waypoints with
      | some wp => pairwiseWaypoints wp
      | none => RouteQuery.init.waypoints }

/-- The JSON body fields read by RouteQuery.from_json. -/
structure JsonBody where
  origin : Option (List ℚ)
  destination : Option (List ℚ)
  mode : Option String
  waypoints : Option (List (ℚ × ℚ))
deriving DecidableEq, Repr

/-- RouteQuery.from_json: each of origin, destination, mode, waypoints is
copied verbatim when present in the body; absent fields keep the defaults
of RouteQuery.__init__. -/
def fromJson (j : JsonBody) : RouteQuery :=
  { origin := match j.origin with | some o => some o | none => RouteQuery.init.origin,
    destination := match j.destination with | some d => some d | none => RouteQuery.init.destination,
    mode := match j.mode with | some m => m | none => RouteQuery.init.mode,
    waypoints := match j.waypoints with | some w => w | none => RouteQuery.init.waypoints }

/-- The validation errors raised by RouteQuery.validate, classified by the
taxonomy of the specification: the required-parameter messages are
MissingParameter, the must-be messages are InvalidParameter. -/
inductive RouteError where
  | missingParameter (param : String)
  | invalidParameter (param : String)
deriving DecidableEq, Repr

deriving instance DecidableEq for Except

/-- The valid_modes list of RouteQuery.validate. -/
def validModes : List String := ["car", "bicycle", "pedestrian"]

/-- RouteQuery.validate, with the checks in source order: origin present,
destination present, mode in valid_modes, len(origin) >= 2,
len(destination) >= 2. -/
def validate (q : RouteQuery) : Except RouteError Unit :=
  match q.origin with
  | none => .error (.missingParameter "origin")
  | some o =>
    match q.destination with
    | none => .error (.missingParameter "destination")
    | some d =>
      if q.mode ∉ validModes then .error (.invalidParameter "mode")
      else if o.length < 2 then .error (.invalidParameter "origin")
      else if d.length < 2 then .error (.invalidParameter "destination")
      else .ok ()

/-- The track-building loop of route_yours for geojson responses:
track starts empty and for each upstream point tp the pair
(tp[1], tp[0]) is appended, turning [lon, lat] into (lat, lon). -/
def route_yours_track (c : List (ℚ × ℚ)) : List (ℚ × ℚ) :=
  c.foldl (fun track tp => track ++ [(tp.2, tp.1)]) []

/-- Canonical route result, embedding class RouteResult of nsp.py, a dict
whose keys that the code ever reads or writes are route, track, waypoints,
coordinates and type; a missing key is none. -/
structure RouteResult where
  route : Option (List (ℚ × ℚ))
  track : Option (List (ℚ × ℚ))
  waypoints : Option (List (ℚ × ℚ))
  coordinates : Option (List (ℚ × ℚ))
  type : Option String
deriving DecidableEq, Repr

/-- route_yours for format geojson: the upstream coordinates list is folded
into a track of (lat, lon) pairs and returned as RouteResult with only the
track key set. -/
def route_yours_parse (coordinates : List (ℚ × ℚ)) : RouteResult :=
  { route := none, track := some (route_yours_track coordinates),
    waypoints := none, coordinates := none, type := none }

/-- Geometry object of one ArcGIS route feature: the paths array, each path
an array of [x, y, m] triples. -/
structure EcanGeometry where
  paths : List (List (ℚ × ℚ × ℚ))
deriving DecidableEq, Repr

/-- One feature of the ArcGIS routes object. -/
structure EcanFeature where
  geometry : EcanGeometry
deriving DecidableEq, Repr

/-- The routes object of the ArcGIS solve response. -/
structure EcanRoutes where
  features : List EcanFeature
deriving DecidableEq, Repr

/-- The parsed ArcGIS solve response as read by route_ecan. -/
structure EcanResult where
  routes : EcanRoutes
deriving DecidableEq, Repr

/-- The response-parsing tail of route_ecan:
path = result[routes][features][0][geometry][paths][0], and
res[coordinates] = [(p[1], p[0]) for p in path]; res[type] = LineString.
Indexing an empty features or paths array raises IndexError, modelled as
none. No coordinate reprojection is performed: the raw x and y of the
projected path are stored swapped as (lat, lon). -/
def route_ecan_parse (result : EcanResult) : Option RouteResult :=
  match result.routes.features with
  | [] => none
  | f :: _ =>
    match f.geometry.paths with
    | [] => none
    | path :: _ =>
      some { route := none, track := none, waypoints := none,
             coordinates := some (path.map fun p => (p.2.1, p.1)),
             type := some "LineString" }

/-- The service registry _routing_services = dict ecan, yours. -/
inductive Adapter where
  | ecan
  | yours
deriving DecidableEq, Repr

/-- Lookup in _routing_services via dict.get: none when the service name is
not registered. -/
def routingServices (service : String) : Option Adapter :=
  if service = "ecan" then some .ecan
  else if service = "yours" then some .yours
  else none

/-- Outcome of the adapter-selection step of api_v1: the handler does
routing_service = _routing_services.get(service) and immediately calls
routing_service(query); when the lookup returned None, that call raises an
unhandled TypeError (None is not callable). -/
inductive DispatchStep where
  | callAdapter (a : Adapter)
  | noneCallTypeError
deriving DecidableEq, Repr

/-- The adapter-selection step of api_v1. -/
def api_v1_select (service : String) : DispatchStep :=
  match routingServices service with
  | some a => .callAdapter a
  | none => .noneCallTypeError

/-- Fixed-point rendering of a rational with six digits after the decimal
point, modelling the Python format operation with percent f applied to a
coordinate: magnitude scaled by one million and rounded half away from
zero, zero padded to six fractional digits, with a leading minus sign for
a negative value. -/
def fmt6 (q : ℚ) : String :=
  let scaled : ℕ := (q.num.natAbs * 1000000 * 2 + q.den) / (2 * q.den)
  let ip := scaled / 1000000
  let fp := scaled % 1000000
  let fps := Nat.repr fp
  let pad := String.mk (List.replicate (6 - fps.length) '0')
  (if q.num < 0 then "-" else "") ++ Nat.repr ip ++ "." ++ pad ++ fps

/-- One rtept line of RouteResult.gpx. -/
def rteptLine (c : ℚ × ℚ) : String :=
  "<rtept lat=\"" ++ fmt6 c.1 ++ "\" lon=\"" ++ fmt6 c.2 ++ "\" />\n"

/-- One trkpt line of RouteResult.gpx. -/
def trkptLine (c : ℚ × ℚ) : String :=
  "<trkpt lat=\"" ++ fmt6 c.1 ++ "\" lon=\"" ++ fmt6 c.2 ++ "\" />\n"

/-- The routepoints accumulation loop of RouteResult.gpx. -/
def routepointsStr (route : List (ℚ × ℚ)) : String :=
  route.foldl (fun acc c => acc ++ rteptLine c) ""

/-- The trackpoints accumulation loop of RouteResult.gpx. -/
def trackpointsStr (track : List (ℚ × ℚ)) : String :=
  track.foldl (fun acc c => acc ++ trkptLine c) ""

/-- self.get(route, self.get(track)): the route key with the track key as
fallback. -/
def routeSeq (m : RouteResult) : Option (List (ℚ × ℚ)) :=
  match m.route with
  | some r => some r
  | none => m.track

/-- self.get(track, self.get(route)): the track key with the route key as
fallback. -/
def trackSeq (m : RouteResult) : Option (List (ℚ × ℚ)) :=
  match m.track with
  | some t => some t
  | none => m.route

/-- The XML declaration line emitted by RouteResult.gpx. -/
def gpxHeader : String :=
  "<?xml version=\x271.0\x27 encoding=\x27UTF-8\x27 standalone=\x27yes\x27 ?>"

/-- The opening gpx element emitted by RouteResult.gpx. -/
def gpxOpen : String :=
  "<gpx version=\"1.1\" creator=\"NSP\" xmlns=\"http://www.topografix.com/GPX/1/1\" xmlns:xsi=\"http://www.w3.org/2001/XMLSchema-instance\" xsi:schemaLocation=\"http://www.topografix.com/GPX/1/1 http://www.topografix.com/GPX/1/1/gpx.xsd\">"

/-- The document assembly of RouteResult.gpx for a resolved route sequence
and track sequence: track block, then route block, then the waypoint slot,
which the code always leaves as the empty string (the wpts value it reads
from the dict is never used), joined by newlines between header and
closing tag. -/
def gpxDocument (route track : List (ℚ × ℚ)) : String :=
  let gpx_route := "<rte>" ++ routepointsStr route ++ "</rte>"
  let gpx_track := "<trk><trkseg>" ++ trackpointsStr track ++ "</trkseg></trk>"
  let gpx_waypoints := ""
  String.intercalate "\n"
    [gpxHeader, gpxOpen, gpx_track, gpx_route, gpx_waypoints, "</gpx>"]

/-- RouteResult.gpx: resolves the route sequence (route key, falling back
to track) and the track sequence (track key, falling back to route) and
assembles the document; when both keys are absent the for loop iterates
None and raises TypeError, modelled as none. -/
def gpx (m : RouteResult) : Option String :=
  match routeSeq m, trackSeq m with
  | some route, some track => some (gpxDocument route track)
  | _, _ => none

/-- List containment of a pattern, checked position by position. -/
def containsSub (l pat : List Char) : Bool :=
  match l with
  | [] => pat.isEmpty
  | _ :: rest => pat.isPrefixOf l || containsSub rest pat

/-- Whether the string pat occurs as a contiguous substring of s. -/
def strContains (s pat : String) : Bool :=
  containsSub s.data pat.data

/-- The flat alternating lat, lon, lat, lon, ... encoding of a waypoint
pair list, as it appears in the waypoints query parameter. -/
def flattenWaypoints : List (ℚ × ℚ) → List ℚ
  | [] => []
  | p :: rest => p.1 :: p.2 :: flattenWaypoints rest

lemma pairwiseWaypoints_cons_cons (a b : ℚ) (l : List ℚ) :
    pairwiseWaypoints (a :: b :: l) = (a, b) :: pairwiseWaypoints l := by
  cases l with
  | nil => rfl
  | cons c l2 => rfl

lemma pairwise_flatten (w : List (ℚ × ℚ)) :
    pairwiseWaypoints (flattenWaypoints w) = w := by
  induction w with
  | nil => rfl
  | cons p rest ih => simp [flattenWaypoints, pairwiseWaypoints_cons_cons, ih]

lemma foldl_append_swap (c : List (ℚ × ℚ)) :
    ∀ acc, c.foldl (fun track tp => track ++ [(tp.2, tp.1)]) acc
      = acc ++ c.map (fun tp => (tp.2, tp.1)) := by
  induction c with
  | nil => intro acc; simp
  | cons p rest ih => intro acc; rw [List.foldl_cons, ih]; simp

lemma route_yours_track_eq_map (c : List (ℚ × ℚ)) :
    route_yours_track c = c.map (fun tp => (tp.2, tp.1)) := by
  simpa using foldl_append_swap c []

/-- The sample path at routes.features[0].geometry.paths[0] of the typical
ArcGIS solve response quoted in route_ecan, whose x and y values are Web
Mercator meters (wkid 102100 / 3857), not degrees. -/
def ecanSamplePath : List (ℚ × ℚ × ℚ) :=
  [(mkRat 19218163123999998 1000000000, mkRat (-5393900276900001) 1000000000, 0),
   (mkRat 192181630272 10000, mkRat (-5393812175500002) 1000000000,
    mkRat 8810149189157487 100000000000000),
   (mkRat 19218162949199997 1000000000, mkRat (-5393731697799999) 1000000000,
    mkRat 168579187944293 1000000000000),
   (mkRat 19218162934199996 1000000000, mkRat (-5393729772700001) 1000000000,
    mkRat 17050434538195134 100000000000000)]

/-- The typical solve response of route_ecan, restricted to the fields the
parsing tail reads. -/
def ecanSampleResult : EcanResult :=
  { routes := { features := [{ geometry := { paths := [ecanSamplePath] } }] } }

/-- C1: the claim states that route_ecan reprojects each projected (x, y)
point into geographic coordinates so that every emitted pair satisfies
abs lat at most 90 and abs lon at most 180. The code performs no
reprojection: on the Web Mercator sample path it emits the raw meters
swapped into the (lat, lon) slots, and every emitted latitude lies far
outside the geographic range. -/
theorem route_ecan_emits_unprojected_coordinates :
    route_ecan_parse ecanSampleResult =
      some { route := none, track := none, waypoints := none,
             coordinates := some
               [(mkRat (-5393900276900001) 1000000000, mkRat 19218163123999998 1000000000),
                (mkRat (-5393812175500002) 1000000000, mkRat 192181630272 10000),
                (mkRat (-5393731697799999) 1000000000, mkRat 19218162949199997 1000000000),
                (mkRat (-5393729772700001) 1000000000, mkRat 19218162934199996 1000000000)],
             type := some "LineString" }
    ∧ (((route_ecan_parse ecanSampleResult).bind RouteResult.coordinates).getD []).all
        (fun c => decide (90 < c.1 ∨ c.1 < -90)) = true := by
  decide

/-- C2: the claim states that an odd-length waypoints list is rejected
with a validation error. The code instead zips the two slices, silently
dropping the trailing unpaired value: the flat list 1, 2, 3 produces the
single pair (1, 2) and the constructed model passes validation. -/
theorem from_args_waypoints_odd_truncated :
    pairwiseWaypoints [1, 2, 3] = [(1, 2)]
    ∧ pairwiseWaypoints [1, 2, 3, 4] = [(1, 2), (3, 4)]
    ∧ fromArgs { origin := [0, 0], destination := [1, 1],
                 waypoints := some [1, 2, 3], mode := none }
        = { origin := some [0, 0], destination := some [1, 1],
            mode := "car", waypoints := [(1, 2)] }
    ∧ validate (fromArgs { origin := [0, 0], destination := [1, 1],
                           waypoints := some [1, 2, 3], mode := none }) = .ok () := by
  decide

/-- Query arguments carrying mode bicycle, with origin 1,2 and
destination 3,4 and no waypoints. -/
def argsModeBicycle : Args :=
  { origin := [1, 2], destination := [3, 4], waypoints := none, mode := some "bicycle" }

/-- The JSON body equivalent to argsModeBicycle. -/
def jsonModeBicycle : JsonBody :=
  { origin := some [1, 2], destination := some [3, 4], waypoints := none,
    mode := some "bicycle" }

/-- C3 counterexample: for the valid request with mode bicycle, the model
built from query arguments differs from the model built from the
equivalent JSON body, because from_args never reads mode and leaves the
default car while from_json copies bicycle; both models pass validation. -/
theorem fromArgs_fromJson_mode_mismatch :
    fromArgs argsModeBicycle ≠ fromJson jsonModeBicycle
    ∧ (fromArgs argsModeBicycle).mode = "car"
    ∧ (fromJson jsonModeBicycle).mode = "bicycle"
    ∧ validate (fromArgs argsModeBicycle) = .ok ()
    ∧ validate (fromJson jsonModeBicycle) = .ok () := by
  decide

/-- C3 amended: for every valid route request whose mode is the default
car, construction from query arguments and from the equivalent JSON body
produce identical canonical models (same origin, destination, waypoints
sequence and mode), both when waypoints are supplied and when they are
absent; a non-default mode is not carried over from the query string
because from_args ignores it. -/
theorem fromArgs_fromJson_agree_default_mode (o d : List ℚ) (w : List (ℚ × ℚ)) :
    fromArgs { origin := o, destination := d,
               waypoints := some (flattenWaypoints w), mode := some "car" }
      = fromJson { origin := some o, destination := some d,
                   waypoints := some w, mode := some "car" }
    ∧ fromArgs { origin := o, destination := d, waypoints := none, mode := some "car" }
      = fromJson { origin := some o, destination := some d,
                   waypoints := none, mode := some "car" } := by
  refine ⟨?_, rfl⟩
  simp [fromArgs, fromJson, RouteQuery.init, pairwise_flatten]

/-- C4: route_yours for a geojson response stores, under the track key of
the result model, the upstream coordinates list with each [lon, lat] pair
reversed to (lat, lon), preserving length and order; on the payload with
coordinates [[172.64, -43.54], [172.63, -43.53]] it yields
[(-43.54, 172.64), (-43.53, 172.63)]. -/
theorem route_yours_parse_reverses_pairs :
    (∀ c : List (ℚ × ℚ),
      (route_yours_parse c).track = some (c.map fun tp => (tp.2, tp.1)))
    ∧ (route_yours_parse
        [(mkRat 17264 100, mkRat (-4354) 100), (mkRat 17263 100, mkRat (-4353) 100)]).track
      = some [(mkRat (-4354) 100, mkRat 17264 100), (mkRat (-4353) 100, mkRat 17263 100)] := by
  constructor
  · intro c
    simp [route_yours_parse, route_yours_track_eq_map]
  · decide

/-- C5: validate, applied to the canonical model regardless of which
construction path built it, fails with a missing-parameter error when
origin or destination is absent, fails with an invalid-parameter error
when both are present but the mode is outside car, bicycle, pedestrian or
origin or destination has fewer than 2 components, and succeeds on every
model passing all these checks. -/
theorem validate_error_classification (q : RouteQuery) :
    (q.origin = none ∨ q.destination = none →
      ∃ p, validate q = .error (.missingParameter p))
    ∧ (∀ o d, q.origin = some o → q.destination = some d →
        (q.mode ∉ validModes ∨ o.length < 2 ∨ d.length < 2) →
        ∃ p, validate q = .error (.invalidParameter p))
    ∧ (∀ o d, q.origin = some o → q.destination = some d →
        q.mode ∈ validModes → 2 ≤ o.length → 2 ≤ d.length →
        validate q = .ok ()) := by
  obtain ⟨og, dg, md, wp⟩ := q
  cases og with
  | none =>
    refine ⟨fun _ => ⟨"origin", rfl⟩, ?_, ?_⟩
    · intro o d ho
      simp at ho
    · intro o d ho
      simp at ho
  | some o =>
    cases dg with
    | none =>
      refine ⟨fun _ => ⟨"destination", rfl⟩, ?_, ?_⟩
      · intro o2 d ho hd
        simp at hd
      · intro o2 d ho hd
        simp at hd
    | some d =>
      refine ⟨?_, ?_, ?_⟩
      · rintro (h | h) <;> simp at h
      · intro o2 d2 ho hd hbad
        have ho2 : o2 = o := by simpa using ho.symm
        have hd2 : d2 = d := by simpa using hd.symm
        rw [ho2, hd2] at hbad
        by_cases hm : md ∈ validModes
        · rcases hbad with hbad | hbad | hbad
          · exact absurd hm hbad
          · exact ⟨"origin", by simp [validate, hm, hbad]⟩
          · by_cases h2 : o.length < 2
            · exact ⟨"origin", by simp [validate, hm, h2]⟩
            · exact ⟨"destination", by simp [validate, hm, h2, hbad]⟩
        · exact ⟨"mode", by simp [validate, hm]⟩
      · intro o2 d2 ho hd hm h2o h2d
        have ho2 : o2 = o := by simpa using ho.symm
        have hd2 : d2 = d := by simpa using hd.symm
        rw [ho2] at h2o
        rw [hd2] at h2d
        simp [validate, hm, Nat.not_lt.mpr h2o, Nat.not_lt.mpr h2d]

/-- C5 witness: validate at concrete models, one for each branch of the
classification: a missing origin, the invalid mode carx, a length-1
origin, and a fully valid model. -/
theorem validate_error_classification_witness :
    (∃ p, validate { origin := none, destination := some [1, 2], mode := "car",
                     waypoints := [] } = .error (.missingParameter p))
    ∧ (∃ p, validate { origin := some [1, 2], destination := some [3, 4], mode := "carx",
                       waypoints := [] } = .error (.invalidParameter p))
    ∧ (∃ p, validate { origin := some [1], destination := some [3, 4], mode := "car",
                       waypoints := [] } = .error (.invalidParameter p))
    ∧ validate { origin := some [1, 2], destination := some [3, 4], mode := "car",
                 waypoints := [] } = .ok () :=
  ⟨(validate_error_classification _).1 (Or.inl rfl),
   (validate_error_classification _).2.1 [1, 2] [3, 4] rfl rfl (Or.inl (by decide)),
   (validate_error_classification _).2.1 [1] [3, 4] rfl rfl (Or.inr (Or.inl (by decide))),
   (validate_error_classification _).2.2 [1, 2] [3, 4] rfl rfl (by decide) (by decide)
     (by decide)⟩

/-- C6: the claim states that an unregistered service name yields a
not-found client error with an unknown-service message and never an
unhandled crash. The code looks the name up with dict.get and calls the
result unconditionally, so for the unregistered name bogus the lookup
returns None and the call raises an unhandled TypeError; the registered
names still dispatch to their adapters. -/
theorem unknown_service_type_error :
    api_v1_select "bogus" = .noneCallTypeError
    ∧ routingServices "bogus" = none
    ∧ api_v1_select "yours" = .callAdapter .yours
    ∧ api_v1_select "ecan" = .callAdapter .ecan := by
  decide

/-- A model whose origin has three numeric components. -/
def qOriginThree : RouteQuery :=
  { origin := some [1, 2, 3], destination := some [4, 5], mode := "car", waypoints := [] }

/-- C7 counterexample: a model whose origin has three components, not
exactly two, passes validation, because validate only rejects origins
with fewer than 2 components. -/
theorem validate_accepts_three_component_origin :
    validate qOriginThree = .ok ()
    ∧ (qOriginThree.origin.getD []).length = 3
    ∧ (qOriginThree.origin.getD []).length ≠ 2 := by
  decide

/-- C7 amended: every model that passes validation has origin and
destination present with at least 2 numeric components each (not exactly
2) and a mode inside the closed enumeration car, bicycle, pedestrian. -/
theorem validate_ok_invariant (q : RouteQuery) (h : validate q = .ok ()) :
    ∃ o d, q.origin = some o ∧ q.destination = some d
      ∧ 2 ≤ o.length ∧ 2 ≤ d.length ∧ q.mode ∈ validModes := by
  obtain ⟨og, dg, md, wp⟩ := q
  cases og with
  | none => simp [validate] at h
  | some o =>
    cases dg with
    | none => simp [validate] at h
    | some d =>
      by_cases hm : md ∈ validModes
      · by_cases h2 : o.length < 2
        · simp [validate, hm, h2] at h
        · by_cases h3 : d.length < 2
          · simp [validate, hm, h2, h3] at h
          · exact ⟨o, d, rfl, rfl, Nat.not_lt.mp h2, Nat.not_lt.mp h3, hm⟩
      · simp [validate, hm] at h

/-- C7 amended witness: the invariant instantiated at a concrete validated
model. -/
theorem validate_ok_invariant_witness :
    ∃ o d,
      (RouteQuery.mk (some [1, 2]) (some [3, 4]) "car" []).origin = some o
      ∧ (RouteQuery.mk (some [1, 2]) (some [3, 4]) "car" []).destination = some d
      ∧ 2 ≤ o.length ∧ 2 ≤ d.length
      ∧ (RouteQuery.mk (some [1, 2]) (some [3, 4]) "car" []).mode ∈ validModes :=
  validate_ok_invariant (RouteQuery.mk (some [1, 2]) (some [3, 4]) "car" []) (by decide)

/-- A result model with a one-point route and an explicitly empty waypoint
sequence. -/
def gpxEmptyWaypointsModel : RouteResult :=
  { route := some [(1, 2)], track := none, waypoints := some [],
    coordinates := none, type := none }

/-- C8: the claim states that for an empty waypoint sequence the GPX
formatter still emits a waypoint container element. The code sets the
waypoint slot of the document to the empty string unconditionally (the
wpts value it reads is never used), so the emitted document contains no
wpt element at all, while the rte container is present. -/
theorem gpx_omits_waypoint_container :
    gpxEmptyWaypointsModel.waypoints = some []
    ∧ (gpx gpxEmptyWaypointsModel).isSome = true
    ∧ strContains ((gpx gpxEmptyWaypointsModel).getD "") "<wpt" = false
    ∧ strContains ((gpx gpxEmptyWaypointsModel).getD "") "<rte>" = true := by
  decide

/-- C9: the GPX formatter is deterministic: its output is a function of
the route, track and waypoints entries of the result model alone, so two
invocations on the same model (or on models agreeing on those entries)
yield byte-identical documents. -/
theorem gpx_deterministic (m1 m2 : RouteResult)
    (hr : m1.route = m2.route) (ht : m1.track = m2.track)
    (_hw : m1.waypoints = m2.waypoints) :
    gpx m1 = gpx m2 := by
  have h1 : routeSeq m1 = routeSeq m2 := by simp [routeSeq, hr, ht]
  have h2 : trackSeq m1 = trackSeq m2 := by simp [trackSeq, hr, ht]
  simp [gpx, h1, h2]

/-- C9 witness: two models agreeing on route, track and waypoints but
differing in the coordinates and type entries format identically. -/
theorem gpx_deterministic_witness :
    gpx { route := some [(1, 2)], track := none, waypoints := some [],
          coordinates := none, type := none }
      = gpx { route := some [(1, 2)], track := none, waypoints := some [],
              coordinates := some [(9, 9)], type := some "LineString" } :=
  gpx_deterministic _ _ rfl rfl rfl

/-- C10: when exactly one of the route and track entries is present, the
resolved route sequence and track sequence coincide, and the formatter
assembles the document with both the rte block and the trk trkseg block
built from that single sequence, so the two blocks carry the same points
in the same order. -/
theorem gpx_route_track_from_single_sequence (m : RouteResult)
    (h : (m.route.isSome = true ∧ m.track = none)
       ∨ (m.route = none ∧ m.track.isSome = true)) :
    ∃ r, routeSeq m = some r ∧ trackSeq m = some r ∧ gpx m = some (gpxDocument r r) := by
  rcases h with ⟨hr, ht⟩ | ⟨hr, ht⟩
  · obtain ⟨r, hr2⟩ := Option.isSome_iff_exists.mp hr
    exact ⟨r, by simp [routeSeq, hr2], by simp [trackSeq, ht, hr2],
      by simp [gpx, routeSeq, trackSeq, hr2, ht]⟩
  · obtain ⟨t, ht2⟩ := Option.isSome_iff_exists.mp ht
    exact ⟨t, by simp [routeSeq, hr, ht2], by simp [trackSeq, ht2],
      by simp [gpx, routeSeq, trackSeq, hr, ht2]⟩

/-- C10 witness: the shared-sequence property at a concrete model holding
only a route entry. -/
theorem gpx_route_track_from_single_sequence_witness :
    ∃ r, routeSeq { route := some [(1, 2)], track := none, waypoints := none,
                    coordinates := none, type := none } = some r
      ∧ trackSeq { route := some [(1, 2)], track := none, waypoints := none,
                   coordinates := none, type := none } = some r
      ∧ gpx { route := some [(1, 2)], track := none, waypoints := none,
              coordinates := none, type := none } = some (gpxDocument r r) :=
  gpx_route_track_from_single_sequence _ (Or.inl ⟨rfl, rfl⟩)
